import Mathlib

/-!
Verification of the order pricing calculator of the product_mng_fe repository.

The calculator lives (in four textually identical copies) in
src/pages/CreateOrderPage.tsx (lines 128-152), src/components/orders/CreateOrderForm.tsx
(lines 156-179), and twice in src/components/orders/CustomerSelector.tsx (the two
EditOrderForm components, lines 370-399 and 825-849).  The submission payload builders
are CreateOrderPage.onSubmit (lines 203-217), the first EditOrderForm mutationFn
(lines 329-348 of CustomerSelector.tsx) and the second EditOrderForm onSubmit
(lines 861-875 of CustomerSelector.tsx).

JavaScript numbers are modelled as rationals extended with NaN and signed infinities
(rounding plays no role in any claim; sign, NaN and infinity propagation do).
Raw form inputs (string or number values) are modelled by their behaviour under the
three observations the code makes of them: Number(x), parseFloat(x) and truthiness.
-/

/-- A JavaScript number: NaN, +Infinity, -Infinity, or a finite value
(modelled as a rational; negative zero is identified with zero, which is sound
for every operation this code performs on the results of `x || 0` coercions). -/
inductive JsNum where
  | nan : JsNum
  | inf : Bool → JsNum
  | fin : ℚ → JsNum
deriving DecidableEq, Repr

/-- True exactly on NaN. -/
def JsNum.isNaN : JsNum → Bool
  | JsNum.nan => true
  | _ => false

/-- True exactly on finite values (not NaN, not an infinity). -/
def JsNum.isFinite : JsNum → Bool
  | JsNum.fin _ => true
  | _ => false

/-- The rational carried by a finite value (0 for NaN and infinities). -/
def JsNum.toQ : JsNum → ℚ
  | JsNum.fin q => q
  | _ => 0

/-- JavaScript comparison x >= 0 : false on NaN, true on +Infinity. -/
def JsNum.isNonNeg : JsNum → Bool
  | JsNum.nan => false
  | JsNum.inf b => !b
  | JsNum.fin q => decide (0 ≤ q)

/-- JavaScript truthiness of a number: NaN and 0 are falsy, everything else truthy. -/
def jsTruthy : JsNum → Bool
  | JsNum.nan => false
  | JsNum.inf _ => true
  | JsNum.fin q => decide (q ≠ 0)

/-- The idiom `x || 0` applied to a number: NaN and 0 become 0. -/
def orZero (x : JsNum) : JsNum := if jsTruthy x then x else JsNum.fin 0

/-- JavaScript addition: NaN propagates, opposite infinities give NaN. -/
def jsAdd : JsNum → JsNum → JsNum
  | JsNum.nan, _ => JsNum.nan
  | _, JsNum.nan => JsNum.nan
  | JsNum.inf a, JsNum.inf b => if a = b then JsNum.inf a else JsNum.nan
  | JsNum.inf a, JsNum.fin _ => JsNum.inf a
  | JsNum.fin _, JsNum.inf b => JsNum.inf b
  | JsNum.fin a, JsNum.fin b => JsNum.fin (a + b)

/-- JavaScript negation. -/
def jsNeg : JsNum → JsNum
  | JsNum.nan => JsNum.nan
  | JsNum.inf b => JsNum.inf (!b)
  | JsNum.fin q => JsNum.fin (-q)

/-- JavaScript subtraction x - y. -/
def jsSub (x y : JsNum) : JsNum := jsAdd x (jsNeg y)

/-- JavaScript multiplication: NaN propagates, 0 * Infinity = NaN. -/
def jsMul : JsNum → JsNum → JsNum
  | JsNum.nan, _ => JsNum.nan
  | _, JsNum.nan => JsNum.nan
  | JsNum.inf a, JsNum.inf b => JsNum.inf (xor a b)
  | JsNum.inf a, JsNum.fin q =>
      if q = 0 then JsNum.nan else JsNum.inf (xor a (decide (q < 0)))
  | JsNum.fin q, JsNum.inf b =>
      if q = 0 then JsNum.nan else JsNum.inf (xor (decide (q < 0)) b)
  | JsNum.fin a, JsNum.fin b => JsNum.fin (a * b)

/-- JavaScript division (here only ever used with divisor 100). -/
def jsDiv : JsNum → JsNum → JsNum
  | JsNum.nan, _ => JsNum.nan
  | _, JsNum.nan => JsNum.nan
  | JsNum.inf _, JsNum.inf _ => JsNum.nan
  | JsNum.inf a, JsNum.fin q => JsNum.inf (xor a (decide (q < 0)))
  | JsNum.fin _, JsNum.inf _ => JsNum.fin 0
  | JsNum.fin a, JsNum.fin b =>
      if b = 0 then (if a = 0 then JsNum.nan else JsNum.inf (decide (a < 0)))
      else JsNum.fin (a / b)

/-- JavaScript comparison x > 0 (as used in `discountValue > 0`): false on NaN. -/
def jsGtZero : JsNum → Bool
  | JsNum.nan => false
  | JsNum.inf b => !b
  | JsNum.fin q => decide (0 < q)

/-- JavaScript comparison x <= y: any comparison with NaN is false. -/
def jsLeB : JsNum → JsNum → Bool
  | JsNum.nan, _ => false
  | _, JsNum.nan => false
  | JsNum.inf true, _ => true
  | _, JsNum.inf false => true
  | JsNum.inf false, _ => false
  | _, JsNum.inf true => false
  | JsNum.fin a, JsNum.fin b => decide (a ≤ b)

/-- Math.min: NaN if either argument is NaN, otherwise the smaller value. -/
def jsMin : JsNum → JsNum → JsNum
  | JsNum.nan, _ => JsNum.nan
  | _, JsNum.nan => JsNum.nan
  | JsNum.inf true, _ => JsNum.inf true
  | _, JsNum.inf true => JsNum.inf true
  | JsNum.inf false, y => y
  | x, JsNum.inf false => x
  | JsNum.fin a, JsNum.fin b => JsNum.fin (min a b)

/-- Math.max: NaN if either argument is NaN, otherwise the larger value. -/
def jsMax : JsNum → JsNum → JsNum
  | JsNum.nan, _ => JsNum.nan
  | _, JsNum.nan => JsNum.nan
  | JsNum.inf false, _ => JsNum.inf false
  | _, JsNum.inf false => JsNum.inf false
  | JsNum.inf true, y => y
  | x, JsNum.inf true => x
  | JsNum.fin a, JsNum.fin b => JsNum.fin (max a b)

/-- A raw form value (string, number or undefined), classified by its behaviour
under the three observations the pricing code makes: Number(x), parseFloat(x)
and truthiness.  Every possible JavaScript form value falls in exactly one class. -/
inductive RawInput where
  /-- The value undefined (an optional field that was never set). -/
  | undef : RawInput
  /-- The empty string (falsy; Number gives 0, parseFloat gives NaN). -/
  | emptyStr : RawInput
  /-- A nonempty whitespace-only string (truthy; Number gives 0, parseFloat NaN). -/
  | wsStr : RawInput
  /-- A nonempty string with no leading numeral, e.g. "abc" (both parses give NaN). -/
  | nonNumericStr : RawInput
  /-- A string that is exactly a finite numeral with value q (both parses give q). -/
  | numStr : ℚ → RawInput
  /-- A string with a leading numeral of value q then garbage, e.g. "12px"
  (Number gives NaN, parseFloat gives q). -/
  | numPrefixStr : ℚ → RawInput
  /-- The strings "Infinity" / "-Infinity" (both parses give the infinity). -/
  | infStr : Bool → RawInput
  /-- An actual number value (both conversions return it unchanged). -/
  | numVal : JsNum → RawInput
deriving DecidableEq, Repr

/-- The JavaScript Number(x) conversion on a raw form value. -/
def jsNumber : RawInput → JsNum
  | RawInput.undef => JsNum.nan
  | RawInput.emptyStr => JsNum.fin 0
  | RawInput.wsStr => JsNum.fin 0
  | RawInput.nonNumericStr => JsNum.nan
  | RawInput.numStr q => JsNum.fin q
  | RawInput.numPrefixStr _ => JsNum.nan
  | RawInput.infStr b => JsNum.inf b
  | RawInput.numVal x => x

/-- The JavaScript parseFloat(x) conversion on a raw form value. -/
def jsParseFloat : RawInput → JsNum
  | RawInput.undef => JsNum.nan
  | RawInput.emptyStr => JsNum.nan
  | RawInput.wsStr => JsNum.nan
  | RawInput.nonNumericStr => JsNum.nan
  | RawInput.numStr q => JsNum.fin q
  | RawInput.numPrefixStr q => JsNum.fin q
  | RawInput.infStr b => JsNum.inf b
  | RawInput.numVal x => x

/-- JavaScript truthiness of a raw form value: undefined and the empty string are
falsy, every other string is truthy, numbers by jsTruthy. -/
def rawTruthy : RawInput → Bool
  | RawInput.undef => false
  | RawInput.emptyStr => false
  | RawInput.numVal x => jsTruthy x
  | _ => true

/-- The idiom `input || "0"` on a raw string-or-undefined value: a falsy input is
replaced by the literal string "0". -/
def orZeroStr (r : RawInput) : RawInput :=
  if rawTruthy r then r else RawInput.numStr 0

/-- One order line item as it sits in form state
(CreateOrderItemSchema / EditOrderItemSchema fields; quantity and unitPrice may
be raw strings or numbers while the user is typing). -/
structure RawItem where
  productId : String
  productName : String
  quantity : RawInput
  unitPrice : RawInput
deriving DecidableEq, Repr

/-- CreateOrderPage.tsx line 130: `const quantity = Number(item.quantity) || 0`. -/
def coercedQuantity (it : RawItem) : JsNum := orZero (jsNumber it.quantity)

/-- CreateOrderPage.tsx line 131: `const price = Number(item.unitPrice) || 0`. -/
def coercedUnitPrice (it : RawItem) : JsNum := orZero (jsNumber it.unitPrice)

/-- CreateOrderPage.tsx line 132: the contribution `quantity * price` of one item. -/
def itemContribution (it : RawItem) : JsNum :=
  jsMul (coercedQuantity it) (coercedUnitPrice it)

/-- CreateOrderPage.tsx lines 129-133: `watchedItems.reduce((acc, item) => acc +
quantity * price, 0)`. -/
def subtotalOf (items : List RawItem) : JsNum :=
  items.foldl (fun acc it => jsAdd acc (itemContribution it)) (JsNum.fin 0)

/-- CreateOrderPage.tsx line 136: `parseFloat(watchedDiscountValueInput || "0")`. -/
def parsedDiscountValue (dvi : RawInput) : JsNum := jsParseFloat (orZeroStr dvi)

/-- CreateOrderPage.tsx lines 135-141: the raw (pre-clamp) discount.  The watched
discount type is a string or null/undefined; null and undefined are modelled as
Option.none, a string value s as Option.some s. -/
def rawDiscountOf (dt : Option String) (dv s : JsNum) : JsNum :=
  if dt = some ("percentage") ∧ jsGtZero dv = true then jsDiv (jsMul s dv) (JsNum.fin 100)
  else if dt = some ("fixed") ∧ jsGtZero dv = true then dv
  else JsNum.fin 0

/-- CreateOrderPage.tsx line 142:
`Math.max(0, Math.min(currentDiscountAmount, currentSubtotal))`. -/
def clampDiscount (raw s : JsNum) : JsNum := jsMax (JsNum.fin 0) (jsMin raw s)

/-- The discount amount actually produced: clamp applied to the raw discount. -/
def discountAmountOf (dt : Option String) (dv s : JsNum) : JsNum :=
  clampDiscount (rawDiscountOf dt dv s) s

/-- CreateOrderPage.tsx line 144:
`const shipping = parseFloat(watchedShippingFeeInput || "0") || 0`. -/
def parsedShipping (sfi : RawInput) : JsNum := orZero (jsParseFloat (orZeroStr sfi))

/-- The `{ subtotal, discountAmount, totalAmount }` object the useMemo returns. -/
structure PricingResult where
  subtotal : JsNum
  discountAmount : JsNum
  totalAmount : JsNum
deriving DecidableEq, Repr

/-- The pricing useMemo of CreateOrderPage.tsx lines 128-152 (textually identical in
CreateOrderForm.tsx lines 156-179 and in both EditOrderForm components of
CustomerSelector.tsx). -/
def calcPricing (items : List RawItem) (dt : Option String) (dvi sfi : RawInput) :
    PricingResult :=
  let s := subtotalOf items
  let d := discountAmountOf dt (parsedDiscountValue dvi) s
  { subtotal := s
    discountAmount := d
    totalAmount := jsAdd (jsSub s d) (parsedShipping sfi) }

/-- CreateOrderSchema (CreateOrderPage.tsx line 36): `items:
z.array(CreateOrderItemSchema).min(1, ...)` - the form-level rule that an order
needs at least one line item. -/
def createOrderItemsOk (items : List RawItem) : Bool := decide (1 ≤ items.length)

/-- Example scenario 2 of the spec, evaluated on the embedded code. -/
example : calcPricing
    [{ productId := ("p1"), productName := ("A"),
       quantity := RawInput.numVal (JsNum.fin 2), unitPrice := RawInput.numVal (JsNum.fin 100) },
     { productId := ("p2"), productName := ("B"),
       quantity := RawInput.numVal (JsNum.fin 1), unitPrice := RawInput.numVal (JsNum.fin 50) }]
    (some ("percentage")) (RawInput.numStr 10) RawInput.emptyStr =
    { subtotal := JsNum.fin 250, discountAmount := JsNum.fin 25, totalAmount := JsNum.fin 225 } := by
  simp [calcPricing, subtotalOf, itemContribution, coercedQuantity, coercedUnitPrice,
    jsNumber, orZero, jsTruthy, jsAdd, jsMul, discountAmountOf, rawDiscountOf, clampDiscount,
    jsMin, jsMax, jsDiv, parsedDiscountValue, parsedShipping, orZeroStr, rawTruthy,
    jsParseFloat, jsSub, jsNeg, jsGtZero, List.foldl]
  norm_num

/-! ## Helper lemmas -/

lemma jsAdd_fin_zero_right (x : JsNum) : jsAdd x (JsNum.fin 0) = x := by
  cases x <;> simp [jsAdd]

lemma jsAdd_fin_zero_left (x : JsNum) : jsAdd (JsNum.fin 0) x = x := by
  cases x <;> simp [jsAdd]

lemma orZero_fin (q : ℚ) : orZero (JsNum.fin q) = JsNum.fin q := by
  by_cases h : q = 0 <;> simp [orZero, jsTruthy, h]

lemma jsMin_fin_fin (a b : ℚ) : jsMin (JsNum.fin a) (JsNum.fin b) = JsNum.fin (min a b) := rfl

lemma jsMax_fin_fin (a b : ℚ) : jsMax (JsNum.fin a) (JsNum.fin b) = JsNum.fin (max a b) := rfl

lemma jsSub_fin_fin (a b : ℚ) : jsSub (JsNum.fin a) (JsNum.fin b) = JsNum.fin (a - b) := by
  simp [jsSub, jsNeg, jsAdd, sub_eq_add_neg]

lemma jsAdd_fin_fin (a b : ℚ) : jsAdd (JsNum.fin a) (JsNum.fin b) = JsNum.fin (a + b) := rfl

/-- The reduce of lines 129-133, started from an arbitrary finite accumulator, over
items whose contributions are all finite, sums the contributions. -/
lemma subtotal_foldl_fin (items : List RawItem)
    (h : ∀ it ∈ items, (itemContribution it).isFinite = true) :
    ∀ a : ℚ,
      List.foldl (fun acc it => jsAdd acc (itemContribution it)) (JsNum.fin a) items =
        JsNum.fin (a + (items.map fun it => (itemContribution it).toQ).sum) := by
  induction items with
  | nil => intro a; simp
  | cons it rest ih =>
      intro a
      obtain ⟨c, hc⟩ : ∃ c, itemContribution it = JsNum.fin c := by
        have hit := h it (List.mem_cons_self it rest)
        cases hx : itemContribution it <;> rw [hx] at hit <;>
          simp [JsNum.isFinite] at hit
        exact ⟨_, rfl⟩
      have hrest : ∀ x ∈ rest, (itemContribution x).isFinite = true :=
        fun x hx => h x (List.mem_cons_of_mem it hx)
      rw [List.foldl_cons, hc, jsAdd_fin_fin, ih hrest (a + c)]
      simp [hc, JsNum.toQ, add_assoc]

lemma subtotal_fin (items : List RawItem)
    (h : ∀ it ∈ items, (itemContribution it).isFinite = true) :
    subtotalOf items = JsNum.fin ((items.map fun it => (itemContribution it).toQ).sum) := by
  have := subtotal_foldl_fin items h 0
  simpa [subtotalOf] using this

/-- If every item contribution is finite and non-negative, the sum of the
contributions is non-negative. -/
lemma subtotal_sum_nonneg (items : List RawItem)
    (h : ∀ it ∈ items,
      (itemContribution it).isFinite = true ∧ (itemContribution it).isNonNeg = true) :
    0 ≤ ((items.map fun it => (itemContribution it).toQ).sum) := by
  apply List.sum_nonneg
  intro x hx
  simp only [List.mem_map] at hx
  obtain ⟨it, hit, rfl⟩ := hx
  obtain ⟨h1, h2⟩ := h it hit
  cases hc : itemContribution it <;> rw [hc] at h1 h2 <;>
    simp [JsNum.isFinite, JsNum.isNonNeg, JsNum.toQ] at h1 h2 ⊢
  exact h2

/-- The clamp of line 142, applied to a non-NaN raw discount and a non-negative
finite subtotal, yields a finite discount between 0 and the subtotal. -/
lemma clampDiscount_bounds (raw : JsNum) (s : ℚ) (hraw : raw.isNaN = false) (hs : 0 ≤ s) :
    ∃ d : ℚ, clampDiscount raw (JsNum.fin s) = JsNum.fin d ∧ 0 ≤ d ∧ d ≤ s := by
  cases raw with
  | nan => simp [JsNum.isNaN] at hraw
  | inf b =>
      cases b with
      | false =>
          refine ⟨s, ?_, hs, le_refl s⟩
          show jsMax (JsNum.fin 0) (JsNum.fin s) = JsNum.fin s
          rw [jsMax_fin_fin, max_eq_right hs]
      | true =>
          exact ⟨0, rfl, le_refl 0, hs⟩
  | fin r =>
      refine ⟨max 0 (min r s), ?_, le_max_left 0 _, max_le hs (min_le_right r s)⟩
      show jsMax (JsNum.fin 0) (jsMin (JsNum.fin r) (JsNum.fin s)) = _
      rw [jsMin_fin_fin, jsMax_fin_fin]

/-- As long as the parsed discount value is not +Infinity, the raw discount of
lines 135-141 on a finite subtotal is never NaN. -/
lemma rawDiscountOf_not_nan (dt : Option String) (dv : JsNum) (s : ℚ)
    (hdv : dv ≠ JsNum.inf false) :
    (rawDiscountOf dt dv (JsNum.fin s)).isNaN = false := by
  unfold rawDiscountOf
  split
  · next h =>
      cases dv with
      | nan => simp [jsGtZero] at h
      | inf b =>
          cases b with
          | false => exact absurd rfl hdv
          | true => simp [jsGtZero] at h
      | fin d =>
          show (jsDiv (JsNum.fin (s * d)) (JsNum.fin 100)).isNaN = false
          norm_num [jsDiv, JsNum.isNaN]
  · split
    · next h =>
        cases dv with
        | nan => simp [jsGtZero] at h
        | inf b =>
            cases b with
            | false => exact absurd rfl hdv
            | true => simp [jsGtZero] at h
        | fin d => simp [JsNum.isNaN]
    · simp [JsNum.isNaN]

lemma discountAmountOf_bounds (dt : Option String) (dv : JsNum) (s : ℚ)
    (hdv : dv ≠ JsNum.inf false) (hs : 0 ≤ s) :
    ∃ d : ℚ, discountAmountOf dt dv (JsNum.fin s) = JsNum.fin d ∧ 0 ≤ d ∧ d ≤ s :=
  clampDiscount_bounds _ s (rawDiscountOf_not_nan dt dv s hdv) hs

/-! ## C1: totalAmount is claimed to never be negative -/

/-- C1 counterexample: with an empty item list, no discount, and the shipping-fee
input string "-10" (parseFloat gives -10), the computed totalAmount is -10, which is
negative.  The claim that totalAmount is greater than or equal to 0 for every input
is therefore false on the code: the shipping fee is not clamped. -/
theorem c1_counterexample :
    (calcPricing [] Option.none RawInput.emptyStr (RawInput.numStr (-10))).totalAmount =
      JsNum.fin (-10) ∧
    (calcPricing [] Option.none RawInput.emptyStr (RawInput.numStr (-10))).totalAmount.isNonNeg =
      false := by
  constructor <;>
    norm_num [calcPricing, subtotalOf, discountAmountOf, rawDiscountOf, clampDiscount,
      jsMin, jsMax, parsedDiscountValue, parsedShipping, orZeroStr, rawTruthy, jsTruthy,
      jsParseFloat, orZero, jsSub, jsNeg, jsAdd, jsGtZero, List.foldl, JsNum.isNonNeg]

/-- C1 amended: totalAmount is non-negative provided every line item contributes a
non-negative finite amount (coerced quantity times coerced price), the parsed
discount value is not +Infinity, and the shipping input parses (through
`parseFloat(x || "0") || 0`) to a non-negative finite value.  Under those
hypotheses the clamp of line 142 bounds the discount by the subtotal, so
`subtotal - discount + shipping` is non-negative. -/
theorem c1_totalAmount_nonneg (items : List RawItem) (dt : Option String)
    (dvi sfi : RawInput)
    (hitems : ∀ it ∈ items,
      (itemContribution it).isFinite = true ∧ (itemContribution it).isNonNeg = true)
    (hdv : parsedDiscountValue dvi ≠ JsNum.inf false)
    (hship : ∃ h : ℚ, parsedShipping sfi = JsNum.fin h ∧ 0 ≤ h) :
    (calcPricing items dt dvi sfi).totalAmount.isNonNeg = true := by
  obtain ⟨sh, hshEq, hsh0⟩ := hship
  have hsub := subtotal_fin items (fun it hit => (hitems it hit).1)
  set S := (items.map fun it => (itemContribution it).toQ).sum with hS
  have hS0 : 0 ≤ S := subtotal_sum_nonneg items hitems
  obtain ⟨d, hd, hd0, hds⟩ := discountAmountOf_bounds dt (parsedDiscountValue dvi) S hdv hS0
  show (jsAdd (jsSub (subtotalOf items)
      (discountAmountOf dt (parsedDiscountValue dvi) (subtotalOf items)))
      (parsedShipping sfi)).isNonNeg = true
  rw [hsub, hd, hshEq, jsSub_fin_fin, jsAdd_fin_fin]
  simp only [JsNum.isNonNeg, decide_eq_true_eq]
  linarith

/-- C1 amended, witness: two items at prices 100 and 50, a fixed discount of 500
(exceeding the subtotal) and shipping 20 give a non-negative total. -/
theorem c1_totalAmount_nonneg_witness :
    (calcPricing
      [{ productId := ("p1"), productName := ("A"),
         quantity := RawInput.numVal (JsNum.fin 2),
         unitPrice := RawInput.numVal (JsNum.fin 100) },
       { productId := ("p2"), productName := ("B"),
         quantity := RawInput.numVal (JsNum.fin 1),
         unitPrice := RawInput.numVal (JsNum.fin 50) }]
      (some ("fixed")) (RawInput.numStr 500) (RawInput.numStr 20)).totalAmount.isNonNeg =
      true := by
  apply c1_totalAmount_nonneg
  · intro it hit
    simp only [List.mem_cons, List.not_mem_nil, or_false] at hit
    rcases hit with rfl | rfl <;>
      constructor <;>
        norm_num [itemContribution, coercedQuantity, coercedUnitPrice, jsNumber, orZero,
          jsTruthy, jsMul, JsNum.isFinite, JsNum.isNonNeg]
  · decide
  · refine ⟨20, ?_, by norm_num⟩
    norm_num [parsedShipping, orZeroStr, rawTruthy, jsParseFloat, orZero, jsTruthy]

/-! ## C2: the shipping fee is claimed to be clamped at zero -/

/-- Spec step 4, as written, for comparison with the code: the spec demands
`shippingFee = max(0, parsedShippingFeeRaw)`, treating negative shipping input
as 0.  No such Math.max appears at any of the four pricing sites. -/
def specShippingFee (sfi : RawInput) : JsNum :=
  jsMax (JsNum.fin 0) (parsedShipping sfi)

/-- C2 counterexample: one item (quantity 1, price 100), no discount, shipping input
string "-7".  The code computes totalAmount = 93: the negative parsed shipping fee
is used as-is and subtracted from the total, whereas under the claimed clamp the
shipping fee would be 0 and the total 100. -/
theorem c2_counterexample :
    parsedShipping (RawInput.numStr (-7)) = JsNum.fin (-7) ∧
    specShippingFee (RawInput.numStr (-7)) = JsNum.fin 0 ∧
    (calcPricing
      [{ productId := ("p1"), productName := ("A"),
         quantity := RawInput.numVal (JsNum.fin 1),
         unitPrice := RawInput.numVal (JsNum.fin 100) }]
      Option.none RawInput.emptyStr (RawInput.numStr (-7))).totalAmount = JsNum.fin 93 := by
  refine ⟨?_, ?_, ?_⟩ <;>
    norm_num [calcPricing, subtotalOf, itemContribution, coercedQuantity, coercedUnitPrice,
      jsNumber, orZero, jsTruthy, jsMul, discountAmountOf, rawDiscountOf, clampDiscount,
      jsMin, jsMax, parsedDiscountValue, parsedShipping, orZeroStr, rawTruthy,
      jsParseFloat, jsSub, jsNeg, jsAdd, jsGtZero, List.foldl, specShippingFee]

/-- C2 amended: the shipping fee used by the pricing calculation is NOT clamped at
zero; the value `parseFloat(input || "0") || 0` is added to the total as-is, so for
any finite parsed shipping value h (negative included) the total of an order with
one 1 x 100 item and no discount is exactly 100 + h. -/
theorem c2_shipping_passthrough (h : ℚ) :
    (calcPricing
      [{ productId := ("p1"), productName := ("A"),
         quantity := RawInput.numVal (JsNum.fin 1),
         unitPrice := RawInput.numVal (JsNum.fin 100) }]
      Option.none RawInput.emptyStr (RawInput.numStr h)).totalAmount =
      JsNum.fin (100 + h) := by
  have hship : parsedShipping (RawInput.numStr h) = JsNum.fin h := by
    simp [parsedShipping, orZeroStr, rawTruthy, jsParseFloat, orZero_fin]
  simp only [calcPricing]
  rw [hship]
  norm_num [subtotalOf, itemContribution, coercedQuantity, coercedUnitPrice, jsNumber,
    orZero, jsTruthy, jsMul, discountAmountOf, rawDiscountOf, clampDiscount, jsMin, jsMax,
    parsedDiscountValue, orZeroStr, rawTruthy, jsParseFloat, jsGtZero, List.foldl,
    jsSub, jsNeg, jsAdd]

/-! ## C4: the claimed invariant 0 <= discountAmount <= subtotal -/

/-- C4 counterexample: one item with quantity 1 and unit price -50 gives
subtotal = -50 and discountAmount = 0 (the clamp Math.max(0, Math.min(raw, subtotal))
floors at 0), so discountAmount <= subtotal is FALSE: the claimed invariant does not
hold for every item list, since negative unit prices pass Number(x) || 0 unchanged. -/
theorem c4_counterexample :
    (calcPricing
      [{ productId := ("p1"), productName := ("A"),
         quantity := RawInput.numVal (JsNum.fin 1),
         unitPrice := RawInput.numVal (JsNum.fin (-50)) }]
      Option.none RawInput.emptyStr RawInput.emptyStr).discountAmount = JsNum.fin 0 ∧
    (calcPricing
      [{ productId := ("p1"), productName := ("A"),
         quantity := RawInput.numVal (JsNum.fin 1),
         unitPrice := RawInput.numVal (JsNum.fin (-50)) }]
      Option.none RawInput.emptyStr RawInput.emptyStr).subtotal = JsNum.fin (-50) ∧
    jsLeB (JsNum.fin 0) (JsNum.fin (-50)) = false := by
  refine ⟨?_, ?_, ?_⟩ <;>
    norm_num [calcPricing, subtotalOf, itemContribution, coercedQuantity, coercedUnitPrice,
      jsNumber, orZero, jsTruthy, jsMul, discountAmountOf, rawDiscountOf, clampDiscount,
      jsMin, jsMax, parsedDiscountValue, orZeroStr, rawTruthy, jsParseFloat, jsGtZero,
      List.foldl, jsLeB, jsAdd]

/-- C4 amended: whenever the computed subtotal is a non-negative finite number and
the parsed discount value is not +Infinity, the clamping invariant holds: the
discount amount is a finite d with 0 <= d <= subtotal, for every discount type and
value (huge percentages and fixed amounts exceeding the subtotal included). -/
theorem c4_discount_clamped (items : List RawItem) (dt : Option String)
    (dvi sfi : RawInput) (s : ℚ)
    (hs : subtotalOf items = JsNum.fin s) (hs0 : 0 ≤ s)
    (hdv : parsedDiscountValue dvi ≠ JsNum.inf false) :
    ∃ d : ℚ, (calcPricing items dt dvi sfi).discountAmount = JsNum.fin d ∧
      0 ≤ d ∧ d ≤ s := by
  obtain ⟨d, hd, hd0, hds⟩ :=
    discountAmountOf_bounds dt (parsedDiscountValue dvi) s hdv hs0
  refine ⟨d, ?_, hd0, hds⟩
  show discountAmountOf dt (parsedDiscountValue dvi) (subtotalOf items) = JsNum.fin d
  rw [hs]
  exact hd

/-- C4 amended, witness: a 10000 percent discount on a subtotal of 10 is clamped
into a value between 0 and 10 (concretely the clamp gives exactly 10). -/
theorem c4_discount_clamped_witness :
    (∃ d : ℚ,
      (calcPricing
        [{ productId := ("p1"), productName := ("A"),
           quantity := RawInput.numVal (JsNum.fin 1),
           unitPrice := RawInput.numVal (JsNum.fin 10) }]
        (some ("percentage")) (RawInput.numStr 10000) RawInput.emptyStr).discountAmount =
        JsNum.fin d ∧ 0 ≤ d ∧ d ≤ 10) := by
  apply c4_discount_clamped
  · norm_num [subtotalOf, itemContribution, coercedQuantity, coercedUnitPrice, jsNumber,
      orZero, jsTruthy, jsMul, List.foldl, jsAdd]
  · norm_num
  · decide

/-! ## C3: coercion of malformed item fields -/

/-- A raw value that is "non-numeric or empty" in the sense of the spec coercion
rule: undefined, the empty string, a whitespace-only string, or a string that is
not a complete numeral (so that Number(x) yields NaN or 0-from-empty rather than a
numeral value). -/
def isMalformedRaw : RawInput → Bool
  | RawInput.undef => true
  | RawInput.emptyStr => true
  | RawInput.wsStr => true
  | RawInput.nonNumericStr => true
  | RawInput.numPrefixStr _ => true
  | _ => false

/-- Spec coercion rule as written, for comparison with the code: a non-numeric or
empty quantity is treated as 1. -/
def specCoercedQuantity (r : RawInput) : JsNum :=
  if isMalformedRaw r then JsNum.fin 1 else jsNumber r

/-- Spec coercion rule as written, for comparison with the code: a non-numeric or
empty unitPrice is treated as 0. -/
def specCoercedUnitPrice (r : RawInput) : JsNum :=
  if isMalformedRaw r then JsNum.fin 0 else jsNumber r

/-- The per-item contribution the spec coercion rule would produce. -/
def specItemContribution (it : RawItem) : JsNum :=
  jsMul (specCoercedQuantity it.quantity) (specCoercedUnitPrice it.unitPrice)

/-- C3 counterexample: for the item { qty: "", price: 5 } the code coerces the
empty quantity through Number("") || 0 to 0, not to 1 as claimed: the code
contribution is 0 whereas the claimed coercion (quantity 1, price kept) gives 5. -/
theorem c3_counterexample :
    coercedQuantity
        { productId := ("p1"), productName := ("A"),
          quantity := RawInput.emptyStr, unitPrice := RawInput.numVal (JsNum.fin 5) } =
      JsNum.fin 0 ∧
    specCoercedQuantity RawInput.emptyStr = JsNum.fin 1 ∧
    itemContribution
        { productId := ("p1"), productName := ("A"),
          quantity := RawInput.emptyStr, unitPrice := RawInput.numVal (JsNum.fin 5) } =
      JsNum.fin 0 ∧
    specItemContribution
        { productId := ("p1"), productName := ("A"),
          quantity := RawInput.emptyStr, unitPrice := RawInput.numVal (JsNum.fin 5) } =
      JsNum.fin 5 ∧
    JsNum.fin 0 ≠ JsNum.fin 5 := by
  refine ⟨?_, ?_, ?_, ?_, ?_⟩ <;>
    norm_num [coercedQuantity, specCoercedQuantity, itemContribution, specItemContribution,
      coercedUnitPrice, specCoercedUnitPrice, isMalformedRaw, jsNumber, orZero, jsTruthy,
      jsMul]

/-- C3 amended: a non-numeric or empty quantity is coerced to 0 (not 1), and a
non-numeric or empty unitPrice is coerced to 0, so an item such as
{ qty: "", price: "abc" } is treated as { qty: 0, price: 0 } and contributes 0 to
the subtotal. -/
theorem c3_malformed_fields_coerce_to_zero (it : RawItem)
    (hq : isMalformedRaw it.quantity = true) (hp : isMalformedRaw it.unitPrice = true) :
    coercedQuantity it = JsNum.fin 0 ∧ coercedUnitPrice it = JsNum.fin 0 ∧
    itemContribution it = JsNum.fin 0 := by
  have hz : ∀ r : RawInput, isMalformedRaw r = true → orZero (jsNumber r) = JsNum.fin 0 := by
    intro r hr
    cases r <;> simp [isMalformedRaw] at hr <;> simp [jsNumber, orZero, jsTruthy]
  refine ⟨hz it.quantity hq, hz it.unitPrice hp, ?_⟩
  show jsMul (coercedQuantity it) (coercedUnitPrice it) = JsNum.fin 0
  rw [show coercedQuantity it = orZero (jsNumber it.quantity) from rfl, hz it.quantity hq]
  rw [show coercedUnitPrice it = orZero (jsNumber it.unitPrice) from rfl, hz it.unitPrice hp]
  norm_num [jsMul]

/-- C3 amended, witness: the spec example item { qty: "", price: "abc" }. -/
theorem c3_malformed_fields_coerce_to_zero_witness :
    coercedQuantity
        { productId := ("p1"), productName := ("A"),
          quantity := RawInput.emptyStr, unitPrice := RawInput.nonNumericStr } =
      JsNum.fin 0 ∧
    coercedUnitPrice
        { productId := ("p1"), productName := ("A"),
          quantity := RawInput.emptyStr, unitPrice := RawInput.nonNumericStr } =
      JsNum.fin 0 ∧
    itemContribution
        { productId := ("p1"), productName := ("A"),
          quantity := RawInput.emptyStr, unitPrice := RawInput.nonNumericStr } =
      JsNum.fin 0 :=
  c3_malformed_fields_coerce_to_zero _ (by decide) (by decide)

/-! ## C5: subtotal is the sum of independently coerced item contributions -/

/-- C5: the subtotal equals the sum over all items of coerced quantity times coerced
unit price, each item coerced independently (first conjunct, for item lists whose
per-item contributions are finite numbers, i.e. whenever the sum is expressible);
and an item whose contribution is 0 (in particular any fully malformed item) leaves
the contributions of all other items intact (second conjunct). -/
theorem c5_subtotal_is_sum :
    (∀ items : List RawItem, (∀ it ∈ items, (itemContribution it).isFinite = true) →
      subtotalOf items =
        JsNum.fin ((items.map fun it => (itemContribution it).toQ).sum)) ∧
    (∀ (xs ys : List RawItem) (bad : RawItem), itemContribution bad = JsNum.fin 0 →
      subtotalOf (xs ++ bad :: ys) = subtotalOf (xs ++ ys)) := by
  constructor
  · exact subtotal_fin
  · intro xs ys bad hbad
    simp only [subtotalOf, List.foldl_append, List.foldl_cons, hbad, jsAdd_fin_zero_right]

/-- C5 witness: the spec example items give subtotal 250, and inserting a malformed
item { qty: "", price: "abc" } between them does not change the subtotal. -/
theorem c5_subtotal_is_sum_witness :
    subtotalOf
        [{ productId := ("p1"), productName := ("A"),
           quantity := RawInput.numVal (JsNum.fin 2),
           unitPrice := RawInput.numVal (JsNum.fin 100) },
         { productId := ("p2"), productName := ("B"),
           quantity := RawInput.numVal (JsNum.fin 1),
           unitPrice := RawInput.numVal (JsNum.fin 50) }] = JsNum.fin 250 ∧
    subtotalOf
        ([{ productId := ("p1"), productName := ("A"),
            quantity := RawInput.numVal (JsNum.fin 2),
            unitPrice := RawInput.numVal (JsNum.fin 100) }] ++
          { productId := ("bad"), productName := ("X"),
            quantity := RawInput.emptyStr, unitPrice := RawInput.nonNumericStr } ::
          [{ productId := ("p2"), productName := ("B"),
             quantity := RawInput.numVal (JsNum.fin 1),
             unitPrice := RawInput.numVal (JsNum.fin 50) }]) =
      subtotalOf
        ([{ productId := ("p1"), productName := ("A"),
            quantity := RawInput.numVal (JsNum.fin 2),
            unitPrice := RawInput.numVal (JsNum.fin 100) }] ++
          [{ productId := ("p2"), productName := ("B"),
             quantity := RawInput.numVal (JsNum.fin 1),
             unitPrice := RawInput.numVal (JsNum.fin 50) }]) := by
  constructor
  · have h := c5_subtotal_is_sum.1
      [{ productId := ("p1"), productName := ("A"),
         quantity := RawInput.numVal (JsNum.fin 2),
         unitPrice := RawInput.numVal (JsNum.fin 100) },
       { productId := ("p2"), productName := ("B"),
         quantity := RawInput.numVal (JsNum.fin 1),
         unitPrice := RawInput.numVal (JsNum.fin 50) }]
      (by
        intro it hit
        simp only [List.mem_cons, List.not_mem_nil, or_false] at hit
        rcases hit with rfl | rfl <;>
          norm_num [itemContribution, coercedQuantity, coercedUnitPrice, jsNumber, orZero,
            jsTruthy, jsMul, JsNum.isFinite])
    rw [h]
    norm_num [itemContribution, coercedQuantity, coercedUnitPrice, jsNumber, orZero,
      jsTruthy, jsMul, JsNum.toQ]
  · exact c5_subtotal_is_sum.2 _ _ _
      (by norm_num [itemContribution, coercedQuantity, coercedUnitPrice, jsNumber, orZero,
        jsTruthy, jsMul])

/-! ## C6: the three-way discount case analysis -/

/-- The clamp applied to a raw discount of 0 yields 0 whenever the subtotal is not
NaN (with a NaN subtotal Math.min(0, NaN) is NaN and the clamp returns NaN). -/
lemma clampDiscount_zero (s : JsNum) (h : s.isNaN = false) :
    clampDiscount (JsNum.fin 0) s = JsNum.fin 0 := by
  cases s with
  | nan => simp [JsNum.isNaN] at h
  | inf b =>
      cases b with
      | false =>
          show jsMax (JsNum.fin 0) (jsMin (JsNum.fin 0) (JsNum.inf false)) = JsNum.fin 0
          rw [show jsMin (JsNum.fin 0) (JsNum.inf false) = JsNum.fin 0 from rfl,
            jsMax_fin_fin, max_self]
      | true =>
          show jsMax (JsNum.fin 0) (jsMin (JsNum.fin 0) (JsNum.inf true)) = JsNum.fin 0
          rw [show jsMin (JsNum.fin 0) (JsNum.inf true) = JsNum.inf true from rfl]
          rfl
  | fin v =>
      show jsMax (JsNum.fin 0) (jsMin (JsNum.fin 0) (JsNum.fin v)) = JsNum.fin 0
      rw [jsMin_fin_fin, jsMax_fin_fin, max_eq_left (min_le_left 0 v)]

/-- C6 counterexample: the item { qty: Infinity, price: 0 } has contribution
Infinity * 0 = NaN, so the subtotal is NaN; with discountType null (none/absent) and
an empty discount input the discountAmount is then NaN, not 0 as claimed, because
Math.max(0, Math.min(0, NaN)) is NaN. -/
theorem c6_counterexample :
    (calcPricing
      [{ productId := ("p1"), productName := ("A"),
         quantity := RawInput.numVal (JsNum.inf false),
         unitPrice := RawInput.numVal (JsNum.fin 0) }]
      Option.none RawInput.emptyStr RawInput.emptyStr).discountAmount = JsNum.nan ∧
    JsNum.nan ≠ JsNum.fin 0 := by
  constructor
  · norm_num [calcPricing, subtotalOf, itemContribution, coercedQuantity, coercedUnitPrice,
      jsNumber, orZero, jsTruthy, jsMul, discountAmountOf, rawDiscountOf, clampDiscount,
      jsMin, jsMax, parsedDiscountValue, orZeroStr, rawTruthy, jsParseFloat, jsGtZero,
      List.foldl, jsAdd]
  · simp

/-- C6 amended: the raw discount follows the claimed three-way case analysis
(percentage with positive parsed value gives subtotal * value / 100; fixed with
positive parsed value gives the value), and in every other case - discountType
none, null or absent, or a parsed discount value that is not positive (zero,
negative, or NaN from an unparseable string) - the discountAmount is 0, provided
the subtotal is not NaN (with a NaN subtotal the clamp propagates NaN). -/
theorem c6_discount_cases (items : List RawItem) (dt : Option String) (dvi sfi : RawInput) :
    ((dt = some ("percentage") ∧ jsGtZero (parsedDiscountValue dvi) = true) →
      rawDiscountOf dt (parsedDiscountValue dvi) (subtotalOf items) =
        jsDiv (jsMul (subtotalOf items) (parsedDiscountValue dvi)) (JsNum.fin 100)) ∧
    ((dt = some ("fixed") ∧ jsGtZero (parsedDiscountValue dvi) = true) →
      rawDiscountOf dt (parsedDiscountValue dvi) (subtotalOf items) =
        parsedDiscountValue dvi) ∧
    (((dt ≠ some ("percentage") ∧ dt ≠ some ("fixed")) ∨
        jsGtZero (parsedDiscountValue dvi) = false) →
      (subtotalOf items).isNaN = false →
      (calcPricing items dt dvi sfi).discountAmount = JsNum.fin 0) := by
  refine ⟨?_, ?_, ?_⟩
  · intro h
    unfold rawDiscountOf
    rw [if_pos h]
  · rintro ⟨h1, h2⟩
    have hc1 : ¬(dt = some ("percentage") ∧ jsGtZero (parsedDiscountValue dvi) = true) := by
      rintro ⟨hp, _⟩
      rw [h1] at hp
      simp at hp
    unfold rawDiscountOf
    rw [if_neg hc1, if_pos ⟨h1, h2⟩]
  · intro hcond hnan
    have hraw : rawDiscountOf dt (parsedDiscountValue dvi) (subtotalOf items) =
        JsNum.fin 0 := by
      have hc1 : ¬(dt = some ("percentage") ∧ jsGtZero (parsedDiscountValue dvi) = true) := by
        rintro ⟨hdt, hgt⟩
        rcases hcond with ⟨hn, _⟩ | hf
        · exact hn hdt
        · rw [hf] at hgt; cases hgt
      have hc2 : ¬(dt = some ("fixed") ∧ jsGtZero (parsedDiscountValue dvi) = true) := by
        rintro ⟨hdt, hgt⟩
        rcases hcond with ⟨_, hn⟩ | hf
        · exact hn hdt
        · rw [hf] at hgt; cases hgt
      unfold rawDiscountOf
      rw [if_neg hc1, if_neg hc2]
    show clampDiscount (rawDiscountOf dt (parsedDiscountValue dvi) (subtotalOf items))
        (subtotalOf items) = JsNum.fin 0
    rw [hraw]
    exact clampDiscount_zero _ hnan

/-- C6 amended, witness: fixed discount 5 on a 1 x 100 item gives raw discount 5, and
with discountType null and a stale discount input "5" the discount amount is 0. -/
theorem c6_discount_cases_witness :
    rawDiscountOf (some ("fixed")) (parsedDiscountValue (RawInput.numStr 5))
        (subtotalOf
          [{ productId := ("p1"), productName := ("A"),
             quantity := RawInput.numVal (JsNum.fin 1),
             unitPrice := RawInput.numVal (JsNum.fin 100) }]) =
      parsedDiscountValue (RawInput.numStr 5) ∧
    (calcPricing
      [{ productId := ("p1"), productName := ("A"),
         quantity := RawInput.numVal (JsNum.fin 1),
         unitPrice := RawInput.numVal (JsNum.fin 100) }]
      Option.none (RawInput.numStr 5) RawInput.emptyStr).discountAmount = JsNum.fin 0 := by
  constructor
  · exact (c6_discount_cases
      [{ productId := ("p1"), productName := ("A"),
         quantity := RawInput.numVal (JsNum.fin 1),
         unitPrice := RawInput.numVal (JsNum.fin 100) }]
      (some ("fixed")) (RawInput.numStr 5) RawInput.emptyStr).2.1 ⟨rfl, by decide⟩
  · exact (c6_discount_cases
      [{ productId := ("p1"), productName := ("A"),
         quantity := RawInput.numVal (JsNum.fin 1),
         unitPrice := RawInput.numVal (JsNum.fin 100) }]
      Option.none (RawInput.numStr 5) RawInput.emptyStr).2.2
      (Or.inl ⟨by simp, by simp⟩)
      (by norm_num [subtotalOf, itemContribution, coercedQuantity, coercedUnitPrice,
        jsNumber, orZero, jsTruthy, jsMul, List.foldl, jsAdd, JsNum.isNaN])

/-! ## C7: no NaN or Infinity in any output field -/

/-- A raw input that does not carry an infinite value: every malformed class
(undefined, empty, whitespace-only, non-numeric, numeral-then-garbage strings), every
finite numeral string, every finite number and the NaN number.  Excluded are only
the strings "Infinity"/"-Infinity" and infinite number values, which JavaScript
parses to actual infinities. -/
def isFiniteRaw : RawInput → Bool
  | RawInput.infStr _ => false
  | RawInput.numVal (JsNum.inf _) => false
  | _ => true

lemma isFinite_exists {x : JsNum} (h : x.isFinite = true) : ∃ q : ℚ, x = JsNum.fin q := by
  cases x <;> simp [JsNum.isFinite] at h
  exact ⟨_, rfl⟩

lemma orZero_jsNumber_fin (r : RawInput) (h : isFiniteRaw r = true) :
    ∃ q : ℚ, orZero (jsNumber r) = JsNum.fin q := by
  cases r with
  | undef => exact ⟨0, rfl⟩
  | emptyStr => exact ⟨0, by simp [jsNumber, orZero, jsTruthy]⟩
  | wsStr => exact ⟨0, by simp [jsNumber, orZero, jsTruthy]⟩
  | nonNumericStr => exact ⟨0, rfl⟩
  | numStr q => exact ⟨q, by simp [jsNumber]; exact orZero_fin q⟩
  | numPrefixStr q => exact ⟨0, rfl⟩
  | infStr b => simp [isFiniteRaw] at h
  | numVal x =>
      cases x with
      | nan => exact ⟨0, rfl⟩
      | inf b => simp [isFiniteRaw] at h
      | fin q => exact ⟨q, by simp [jsNumber]; exact orZero_fin q⟩

/-- On inputs without infinite values, `parseFloat(x || "0")` is a finite number
or NaN (never an infinity). -/
lemma parsedDiscountValue_fin_or_nan (r : RawInput) (h : isFiniteRaw r = true) :
    (parsedDiscountValue r).isFinite = true ∨ parsedDiscountValue r = JsNum.nan := by
  cases r with
  | undef => left; simp [parsedDiscountValue, orZeroStr, rawTruthy, jsParseFloat, JsNum.isFinite]
  | emptyStr => left; simp [parsedDiscountValue, orZeroStr, rawTruthy, jsParseFloat, JsNum.isFinite]
  | wsStr => right; simp [parsedDiscountValue, orZeroStr, rawTruthy, jsParseFloat]
  | nonNumericStr => right; simp [parsedDiscountValue, orZeroStr, rawTruthy, jsParseFloat]
  | numStr q => left; simp [parsedDiscountValue, orZeroStr, rawTruthy, jsParseFloat, JsNum.isFinite]
  | numPrefixStr q => left; simp [parsedDiscountValue, orZeroStr, rawTruthy, jsParseFloat, JsNum.isFinite]
  | infStr b => simp [isFiniteRaw] at h
  | numVal x =>
      cases x with
      | nan => left; simp [parsedDiscountValue, orZeroStr, rawTruthy, jsTruthy, jsParseFloat, JsNum.isFinite]
      | inf b => simp [isFiniteRaw] at h
      | fin q =>
          left
          by_cases hq : q = 0
          · subst hq
            simp [parsedDiscountValue, orZeroStr, rawTruthy, jsTruthy, jsParseFloat, JsNum.isFinite]
          · simp [parsedDiscountValue, orZeroStr, rawTruthy, jsTruthy, hq, jsParseFloat, JsNum.isFinite]

/-- On inputs without infinite values, the shipping value
`parseFloat(x || "0") || 0` is a finite number. -/
lemma parsedShipping_fin (r : RawInput) (h : isFiniteRaw r = true) :
    ∃ q : ℚ, parsedShipping r = JsNum.fin q := by
  rcases parsedDiscountValue_fin_or_nan r h with hf | hn
  · obtain ⟨q, hq⟩ := isFinite_exists hf
    refine ⟨q, ?_⟩
    show orZero (parsedDiscountValue r) = JsNum.fin q
    rw [hq]
    exact orZero_fin q
  · refine ⟨0, ?_⟩
    show orZero (parsedDiscountValue r) = JsNum.fin 0
    rw [hn]
    rfl

/-- On a finite subtotal, with a parsed discount value that is finite or NaN, the
discount amount is finite. -/
lemma discountAmountOf_finite (dt : Option String) (dv : JsNum) (s : ℚ)
    (hdv : dv.isFinite = true ∨ dv = JsNum.nan) :
    (discountAmountOf dt dv (JsNum.fin s)).isFinite = true := by
  have hraw : (rawDiscountOf dt dv (JsNum.fin s)).isFinite = true := by
    unfold rawDiscountOf
    rcases hdv with hf | rfl
    · obtain ⟨d, rfl⟩ := isFinite_exists hf
      split
      · show (jsDiv (JsNum.fin (s * d)) (JsNum.fin 100)).isFinite = true
        norm_num [jsDiv, JsNum.isFinite]
      · split
        · simp [JsNum.isFinite]
        · simp [JsNum.isFinite]
    · simp [jsGtZero, JsNum.isFinite]
  obtain ⟨r, hr⟩ := isFinite_exists hraw
  show (clampDiscount (rawDiscountOf dt dv (JsNum.fin s)) (JsNum.fin s)).isFinite = true
  rw [hr]
  show (jsMax (JsNum.fin 0) (jsMin (JsNum.fin r) (JsNum.fin s))).isFinite = true
  rw [jsMin_fin_fin, jsMax_fin_fin]
  simp [JsNum.isFinite]

/-- C7: for every input whose raw fields carry no infinite value - in particular
for every malformed input (empty-string, undefined, whitespace or non-numeric
unitPrice, quantity, discountValueRaw or shippingFeeRaw) as well as ordinary
finite values - none of subtotal, discountAmount and totalAmount is NaN or an
infinity: malformed fields are degraded to safe defaults (0) instead of
propagating NaN.  The embedding is a total function, matching the
never-throws part of the claim. -/
theorem c7_no_nan_or_infinity (items : List RawItem) (dt : Option String)
    (dvi sfi : RawInput)
    (hitems : ∀ it ∈ items, isFiniteRaw it.quantity = true ∧ isFiniteRaw it.unitPrice = true)
    (hdvi : isFiniteRaw dvi = true) (hsfi : isFiniteRaw sfi = true) :
    (calcPricing items dt dvi sfi).subtotal.isFinite = true ∧
    (calcPricing items dt dvi sfi).discountAmount.isFinite = true ∧
    (calcPricing items dt dvi sfi).totalAmount.isFinite = true := by
  have hcontrib : ∀ it ∈ items, (itemContribution it).isFinite = true := by
    intro it hit
    obtain ⟨h1, h2⟩ := hitems it hit
    obtain ⟨a, ha⟩ := orZero_jsNumber_fin it.quantity h1
    obtain ⟨b, hb⟩ := orZero_jsNumber_fin it.unitPrice h2
    show (jsMul (coercedQuantity it) (coercedUnitPrice it)).isFinite = true
    rw [show coercedQuantity it = orZero (jsNumber it.quantity) from rfl, ha,
      show coercedUnitPrice it = orZero (jsNumber it.unitPrice) from rfl, hb]
    simp [jsMul, JsNum.isFinite]
  have hsub := subtotal_fin items hcontrib
  have hdisc := discountAmountOf_finite dt (parsedDiscountValue dvi)
    ((items.map fun it => (itemContribution it).toQ).sum)
    (parsedDiscountValue_fin_or_nan dvi hdvi)
  obtain ⟨d, hd⟩ := isFinite_exists hdisc
  obtain ⟨sh, hsh⟩ := parsedShipping_fin sfi hsfi
  refine ⟨?_, ?_, ?_⟩
  · show (subtotalOf items).isFinite = true
    rw [hsub]
    simp [JsNum.isFinite]
  · show (discountAmountOf dt (parsedDiscountValue dvi) (subtotalOf items)).isFinite = true
    rw [hsub]
    exact hdisc
  · show (jsAdd (jsSub (subtotalOf items)
        (discountAmountOf dt (parsedDiscountValue dvi) (subtotalOf items)))
        (parsedShipping sfi)).isFinite = true
    rw [hsub, hd, hsh, jsSub_fin_fin, jsAdd_fin_fin]
    simp [JsNum.isFinite]

/-- C7 witness: item { qty: "abc", price: "" }, discount input "abc", shipping
input undefined - all outputs are finite. -/
theorem c7_no_nan_or_infinity_witness :
    (calcPricing
      [{ productId := ("p1"), productName := ("A"),
         quantity := RawInput.nonNumericStr, unitPrice := RawInput.emptyStr }]
      (some ("percentage")) RawInput.nonNumericStr RawInput.undef).subtotal.isFinite = true ∧
    (calcPricing
      [{ productId := ("p1"), productName := ("A"),
         quantity := RawInput.nonNumericStr, unitPrice := RawInput.emptyStr }]
      (some ("percentage")) RawInput.nonNumericStr RawInput.undef).discountAmount.isFinite = true ∧
    (calcPricing
      [{ productId := ("p1"), productName := ("A"),
         quantity := RawInput.nonNumericStr, unitPrice := RawInput.emptyStr }]
      (some ("percentage")) RawInput.nonNumericStr RawInput.undef).totalAmount.isFinite = true := by
  apply c7_no_nan_or_infinity
  · intro it hit
    simp only [List.mem_cons, List.not_mem_nil, or_false] at hit
    rcases hit with rfl
    constructor <;> decide
  · decide
  · decide

/-! ## C9: behaviour on an empty item list -/

lemma jsAdd_fin_zero_left_any (x : JsNum) : jsAdd (JsNum.fin 0) x = x := by
  cases x <;> simp [jsAdd]

/-- C9 counterexample: on an empty item list with discountType "percentage" and the
discount input "Infinity", the subtotal is 0 but the raw discount is
(0 * Infinity) / 100 = NaN, so discountAmount and totalAmount are NaN: the
discount is NOT clamped to the zero subtotal and the total is NOT the parsed
shipping fee (which is 0 here). -/
theorem c9_counterexample :
    (calcPricing [] (some ("percentage")) (RawInput.infStr false)
        RawInput.emptyStr).discountAmount = JsNum.nan ∧
    (calcPricing [] (some ("percentage")) (RawInput.infStr false)
        RawInput.emptyStr).totalAmount = JsNum.nan ∧
    parsedShipping RawInput.emptyStr = JsNum.fin 0 ∧
    JsNum.nan ≠ JsNum.fin 0 := by
  refine ⟨?_, ?_, ?_, by decide⟩ <;>
    norm_num [calcPricing, subtotalOf, discountAmountOf, rawDiscountOf, clampDiscount,
      jsMin, jsMax, jsMul, jsDiv, parsedDiscountValue, parsedShipping, orZeroStr,
      rawTruthy, jsParseFloat, orZero, jsTruthy, jsSub, jsNeg, jsAdd, jsGtZero,
      List.foldl]

/-- C9 amended: for the empty item list the calculator still produces a result -
subtotal 0, discountAmount 0 and totalAmount equal to the parsed shipping fee
alone - for every discount type and input, except when discountType is
"percentage" and the discount input parses to +Infinity (then 0 * Infinity makes
discount and total NaN).  The at-least-one-item rule is not enforced by the
calculator; it lives in the form schema (createOrderItemsOk rejects the empty
list). -/
theorem c9_empty_items (dt : Option String) (dvi sfi : RawInput)
    (hdv : ¬(dt = some ("percentage") ∧ parsedDiscountValue dvi = JsNum.inf false)) :
    (calcPricing [] dt dvi sfi).subtotal = JsNum.fin 0 ∧
    (calcPricing [] dt dvi sfi).discountAmount = JsNum.fin 0 ∧
    (calcPricing [] dt dvi sfi).totalAmount = parsedShipping sfi ∧
    createOrderItemsOk [] = false := by
  have hsub : subtotalOf [] = JsNum.fin 0 := rfl
  have hdisc : (calcPricing [] dt dvi sfi).discountAmount = JsNum.fin 0 := by
    show clampDiscount (rawDiscountOf dt (parsedDiscountValue dvi) (subtotalOf []))
        (subtotalOf []) = JsNum.fin 0
    rw [hsub]
    cases hdv2 : parsedDiscountValue dvi with
    | nan =>
        rw [show rawDiscountOf dt JsNum.nan (JsNum.fin 0) = JsNum.fin 0 by
          simp [rawDiscountOf, jsGtZero]]
        exact clampDiscount_zero _ rfl
    | inf b =>
        cases b with
        | false =>
            have hdt : ¬ dt = some ("percentage") := fun h => hdv ⟨h, hdv2⟩
            unfold rawDiscountOf
            by_cases hfx : dt = some ("fixed") ∧ jsGtZero (JsNum.inf false) = true
            · rw [if_neg (fun hc => hdt hc.1), if_pos hfx]
              show jsMax (JsNum.fin 0) (jsMin (JsNum.inf false) (JsNum.fin 0)) = JsNum.fin 0
              rfl
            · rw [if_neg (fun hc => hdt hc.1), if_neg hfx]
              exact clampDiscount_zero _ rfl
        | true =>
            rw [show rawDiscountOf dt (JsNum.inf true) (JsNum.fin 0) = JsNum.fin 0 by
              simp [rawDiscountOf, jsGtZero]]
            exact clampDiscount_zero _ rfl
    | fin d =>
        unfold rawDiscountOf
        by_cases hp : dt = some ("percentage") ∧ jsGtZero (JsNum.fin d) = true
        · rw [if_pos hp]
          show jsMax (JsNum.fin 0) (jsMin (jsDiv (jsMul (JsNum.fin 0) (JsNum.fin d))
              (JsNum.fin 100)) (JsNum.fin 0)) = JsNum.fin 0
          rw [show jsMul (JsNum.fin 0) (JsNum.fin d) = JsNum.fin (0 * d) from rfl, zero_mul]
          rw [show jsDiv (JsNum.fin 0) (JsNum.fin 100) = JsNum.fin (0 / 100) by
            norm_num [jsDiv]]
          rw [jsMin_fin_fin, jsMax_fin_fin]
          norm_num
        · rw [if_neg hp]
          by_cases hf : dt = some ("fixed") ∧ jsGtZero (JsNum.fin d) = true
          · rw [if_pos hf]
            show jsMax (JsNum.fin 0) (jsMin (JsNum.fin d) (JsNum.fin 0)) = JsNum.fin 0
            rw [jsMin_fin_fin, jsMax_fin_fin]
            have hd0 : 0 < d := by
              have := hf.2
              simpa [jsGtZero] using this
            rw [min_eq_right hd0.le, max_self]
          · rw [if_neg hf]
            exact clampDiscount_zero _ rfl
  refine ⟨hsub, hdisc, ?_, rfl⟩
  show jsAdd (jsSub (subtotalOf [])
      (discountAmountOf dt (parsedDiscountValue dvi) (subtotalOf [])))
      (parsedShipping sfi) = parsedShipping sfi
  have hdisc2 : discountAmountOf dt (parsedDiscountValue dvi) (subtotalOf []) =
      JsNum.fin 0 := hdisc
  rw [hdisc2, hsub, jsSub_fin_fin]
  norm_num [jsAdd_fin_zero_left_any]

/-- C9 amended, witness: empty items, fixed discount 1000000, shipping input "25":
subtotal 0, discount 0, total 25, and the form schema rejects the empty list. -/
theorem c9_empty_items_witness :
    (calcPricing [] (some ("fixed")) (RawInput.numStr 1000000)
        (RawInput.numStr 25)).subtotal = JsNum.fin 0 ∧
    (calcPricing [] (some ("fixed")) (RawInput.numStr 1000000)
        (RawInput.numStr 25)).discountAmount = JsNum.fin 0 ∧
    (calcPricing [] (some ("fixed")) (RawInput.numStr 1000000)
        (RawInput.numStr 25)).totalAmount = parsedShipping (RawInput.numStr 25) ∧
    createOrderItemsOk [] = false :=
  c9_empty_items (some ("fixed")) (RawInput.numStr 1000000) (RawInput.numStr 25)
    (by decide)

/-! ## Submission payloads

Payload objects are modelled as ordered key-value lists, in the property order the
source writes them.  A property whose value is undefined is omitted, matching its
JSON serialization (axios/JSON.stringify drop undefined-valued properties); a null
value is kept as jnull. -/

/-- An item as written into the first EditOrderForm update payload
(CustomerSelector.tsx lines 333-338): product fields copied, quantity and
unitPrice passed through Number(x) (with no || 0 here). -/
structure PayloadItem where
  productId : String
  productName : String
  quantity : JsNum
  unitPrice : JsNum
deriving DecidableEq, Repr

/-- A JSON-ish payload value. -/
inductive JVal where
  /-- A number value. -/
  | jnum : JsNum → JVal
  /-- A string value. -/
  | jstr : String → JVal
  /-- The JSON null. -/
  | jnull : JVal
  /-- A raw form value copied into the payload unchanged (object spread). -/
  | jraw : RawInput → JVal
  /-- An items array copied from form state unchanged (object spread). -/
  | jitemsRaw : List RawItem → JVal
  /-- An items array mapped through Number(x) on quantity and unitPrice. -/
  | jitemsNum : List PayloadItem → JVal
deriving DecidableEq, Repr

/-- Build a payload object from a list of optional properties, dropping the
undefined (none) ones. -/
def jsonObj (fields : List (String × Option JVal)) : List (String × JVal) :=
  fields.filterMap (fun kv => kv.2.map (fun v => (kv.1, v)))

/-- The discountType form field: the zod schemas allow a string value, null
(CreateOrderSchema, second EditOrderSchema: nullable) or absence (optional). -/
inductive DiscountTypeField where
  /-- The field is undefined (absent). -/
  | undef : DiscountTypeField
  /-- The field is null. -/
  | nullv : DiscountTypeField
  /-- The field holds the string s. -/
  | strv : String → DiscountTypeField
deriving DecidableEq, Repr

/-- The value the pricing useMemo sees for a discountType field: null and
undefined are both modelled as Option.none (neither equals "percentage" or
"fixed" under ===). -/
def DiscountTypeField.toOpt : DiscountTypeField → Option String
  | DiscountTypeField.strv s => some s
  | _ => none

/-- The payload property for a discountType field written as-is: undefined is
dropped, null becomes JSON null, a string stays a string. -/
def discountTypeProp : DiscountTypeField → Option JVal
  | DiscountTypeField.undef => none
  | DiscountTypeField.nullv => some JVal.jnull
  | DiscountTypeField.strv s => some (JVal.jstr s)

/-- The payload property for a raw string-or-undefined form field copied by object
spread: undefined is dropped, any string (empty included) is kept. -/
def rawProp (r : RawInput) : Option JVal :=
  if r = RawInput.undef then none else some (JVal.jraw r)

/-- The CreateOrderFormValues of CreateOrderPage.tsx (CreateOrderSchema lines
33-42): raw form state at submission time. -/
structure CreateOrderFormData where
  customerId : String
  customerCategoryId : String
  items : List RawItem
  notes : Option String
  discountType : DiscountTypeField
  discountValueInput : RawInput
  shippingFeeInput : RawInput
  storeShippingCostInput : RawInput
deriving DecidableEq, Repr

/-- CreateOrderPage.tsx onSubmit (lines 203-217): submissionData = { ...data,
totalAmount, discountAmount, shippingFee, discountValue, storeShippingCost },
where totalAmount and discountAmount are the pricing useMemo results on the same
form state. -/
def createOrderSubmissionData (d : CreateOrderFormData) : List (String × JVal) :=
  jsonObj
    [(("customerId"), some (JVal.jstr d.customerId)),
     (("customerCategoryId"), some (JVal.jstr d.customerCategoryId)),
     (("items"), some (JVal.jitemsRaw d.items)),
     (("notes"), d.notes.map JVal.jstr),
     (("discountType"), discountTypeProp d.discountType),
     (("discountValueInput"), rawProp d.discountValueInput),
     (("shippingFeeInput"), rawProp d.shippingFeeInput),
     (("storeShippingCostInput"), rawProp d.storeShippingCostInput),
     (("totalAmount"), some (JVal.jnum
        (calcPricing d.items d.discountType.toOpt d.discountValueInput
          d.shippingFeeInput).totalAmount)),
     (("discountAmount"), some (JVal.jnum
        (calcPricing d.items d.discountType.toOpt d.discountValueInput
          d.shippingFeeInput).discountAmount)),
     (("shippingFee"), some (JVal.jnum
        (if rawTruthy d.shippingFeeInput then jsParseFloat d.shippingFeeInput
         else JsNum.fin 0))),
     (("discountValue"), some (JVal.jnum
        (if rawTruthy d.discountValueInput then jsParseFloat d.discountValueInput
         else JsNum.fin 0))),
     (("storeShippingCost"), some (JVal.jnum
        (if rawTruthy d.storeShippingCostInput then jsParseFloat d.storeShippingCostInput
         else JsNum.fin 0)))]

/-- The EditOrderFormValues of the first EditOrderForm (CustomerSelector.tsx,
EditOrderSchema lines 250-260: discountType is an optional enum
"none" | "percentage" | "fixed"). -/
structure EditOrderFormData where
  customerId : String
  items : List RawItem
  notes : Option String
  status : String
  discountType : DiscountTypeField
  discountValueInput : RawInput
  shippingFeeInput : RawInput
  storeShippingCostInput : RawInput
deriving DecidableEq, Repr

/-- The first EditOrderForm mutationFn (CustomerSelector.tsx lines 329-348):
transformedData sent to updateOrder.  Note: it contains NO totalAmount and NO
discountAmount property; discountType "none" becomes null and then discountValue
is undefined (dropped). -/
def editOrderTransformedData (d : EditOrderFormData) : List (String × JVal) :=
  jsonObj
    [(("customerId"), some (JVal.jstr d.customerId)),
     (("items"), some (JVal.jitemsNum (d.items.map fun it =>
        { productId := it.productId, productName := it.productName,
          quantity := jsNumber it.quantity, unitPrice := jsNumber it.unitPrice }))),
     (("notes"), d.notes.map JVal.jstr),
     (("status"), some (JVal.jstr d.status)),
     (("discountType"),
        if d.discountType = DiscountTypeField.strv ("none") then some JVal.jnull
        else discountTypeProp d.discountType),
     (("discountValue"),
        if d.discountType = DiscountTypeField.strv ("none") then none
        else if rawTruthy d.discountValueInput then
          some (JVal.jnum (jsParseFloat d.discountValueInput))
        else none),
     (("shippingFee"),
        if rawTruthy d.shippingFeeInput then
          some (JVal.jnum (jsParseFloat d.shippingFeeInput))
        else none),
     (("storeShippingCost"),
        if rawTruthy d.storeShippingCostInput then
          some (JVal.jnum (jsParseFloat d.storeShippingCostInput))
        else none)]

/-- The EditOrderFormValues of the second EditOrderForm (CustomerSelector.tsx,
EditOrderSchema lines 746-755: discountType nullable optional, no
storeShippingCost field). -/
structure EditOrderFormDataV2 where
  customerId : String
  items : List RawItem
  notes : Option String
  status : String
  discountType : DiscountTypeField
  discountValueInput : RawInput
  shippingFeeInput : RawInput
deriving DecidableEq, Repr

/-- The second EditOrderForm onSubmit (CustomerSelector.tsx lines 861-875):
submissionData = { ...data, status, totalAmount, discountAmount, shippingFee,
discountValue }, passed straight to updateOrder by the mutationFn (line 805). -/
def editOrderSubmissionDataV2 (d : EditOrderFormDataV2) : List (String × JVal) :=
  jsonObj
    [(("customerId"), some (JVal.jstr d.customerId)),
     (("items"), some (JVal.jitemsRaw d.items)),
     (("notes"), d.notes.map JVal.jstr),
     (("status"), some (JVal.jstr d.status)),
     (("discountType"), discountTypeProp d.discountType),
     (("discountValueInput"), rawProp d.discountValueInput),
     (("shippingFeeInput"), rawProp d.shippingFeeInput),
     (("totalAmount"), some (JVal.jnum
        (calcPricing d.items d.discountType.toOpt d.discountValueInput
          d.shippingFeeInput).totalAmount)),
     (("discountAmount"), some (JVal.jnum
        (calcPricing d.items d.discountType.toOpt d.discountValueInput
          d.shippingFeeInput).discountAmount)),
     (("shippingFee"), some (JVal.jnum
        (if rawTruthy d.shippingFeeInput then jsParseFloat d.shippingFeeInput
         else JsNum.fin 0))),
     (("discountValue"), some (JVal.jnum
        (if rawTruthy d.discountValueInput then jsParseFloat d.discountValueInput
         else JsNum.fin 0)))]

/-! ## Lookup lemmas for payload objects -/

lemma jsonObj_cons_some (k : String) (v : JVal) (rest : List (String × Option JVal)) :
    jsonObj ((k, some v) :: rest) = (k, v) :: jsonObj rest := rfl

lemma jsonObj_cons_none (k : String) (rest : List (String × Option JVal)) :
    jsonObj ((k, Option.none) :: rest) = jsonObj rest := rfl

lemma lookup_jsonObj_nil (k : String) :
    List.lookup k (jsonObj []) = Option.none := rfl

/-- Looking a key up past a property with a different key, whether that property
is present (some) or dropped (none). -/
lemma lookup_jsonObj_skip (k k' : String) (o : Option JVal)
    (rest : List (String × Option JVal)) (h : (k == k') = false) :
    List.lookup k (jsonObj ((k', o) :: rest)) = List.lookup k (jsonObj rest) := by
  cases o with
  | none => rfl
  | some v =>
      rw [jsonObj_cons_some]
      simp [List.lookup, h]

/-- Looking a key up at a present property with that key. -/
lemma lookup_jsonObj_hit (k : String) (v : JVal) (rest : List (String × Option JVal)) :
    List.lookup k (jsonObj ((k, some v) :: rest)) = some v := by
  rw [jsonObj_cons_some]
  simp [List.lookup]

/-! ## C10: discountType "none" is canonicalized in the edit-order update payload -/

/-- C10: when the first EditOrderForm is submitted with discountType "none", the
update payload maps discountType to null and carries no discountValue property at
all (the stale discount input string is discarded). -/
theorem c10_none_canonicalized (d : EditOrderFormData)
    (h : d.discountType = DiscountTypeField.strv ("none")) :
    List.lookup ("discountType") (editOrderTransformedData d) = some JVal.jnull ∧
    List.lookup ("discountValue") (editOrderTransformedData d) = Option.none := by
  constructor <;>
    simp [editOrderTransformedData, h, lookup_jsonObj_skip, lookup_jsonObj_hit,
      jsonObj_cons_none, lookup_jsonObj_nil]

/-- C10 witness: a concrete form state with discountType "none" and a stale
discount input "15". -/
theorem c10_none_canonicalized_witness :
    List.lookup ("discountType") (editOrderTransformedData
      { customerId := ("c1"),
        items := [{ productId := ("p1"), productName := ("A"),
                    quantity := RawInput.numVal (JsNum.fin 2),
                    unitPrice := RawInput.numVal (JsNum.fin 100) }],
        notes := Option.none, status := ("pending"),
        discountType := DiscountTypeField.strv ("none"),
        discountValueInput := RawInput.numStr 15,
        shippingFeeInput := RawInput.emptyStr,
        storeShippingCostInput := RawInput.undef }) = some JVal.jnull ∧
    List.lookup ("discountValue") (editOrderTransformedData
      { customerId := ("c1"),
        items := [{ productId := ("p1"), productName := ("A"),
                    quantity := RawInput.numVal (JsNum.fin 2),
                    unitPrice := RawInput.numVal (JsNum.fin 100) }],
        notes := Option.none, status := ("pending"),
        discountType := DiscountTypeField.strv ("none"),
        discountValueInput := RawInput.numStr 15,
        shippingFeeInput := RawInput.emptyStr,
        storeShippingCostInput := RawInput.undef }) = Option.none :=
  c10_none_canonicalized _ rfl

/-! ## C8: what the submission payloads contain -/

/-- C8 counterexample: an edit-order submission through the first EditOrderForm
mutationFn - with an active fixed discount of 10, one 2 x 100 item and shipping 5 -
sends a payload that contains NO totalAmount and NO discountAmount property
(the backend only receives discountType/discountValue/shippingFee), refuting the
claim that every order-submission payload includes totalAmount and
discountAmount. -/
theorem c8_counterexample :
    List.lookup ("totalAmount") (editOrderTransformedData
      { customerId := ("c1"),
        items := [{ productId := ("p1"), productName := ("A"),
                    quantity := RawInput.numVal (JsNum.fin 2),
                    unitPrice := RawInput.numVal (JsNum.fin 100) }],
        notes := Option.none, status := ("pending"),
        discountType := DiscountTypeField.strv ("fixed"),
        discountValueInput := RawInput.numStr 10,
        shippingFeeInput := RawInput.numStr 5,
        storeShippingCostInput := RawInput.undef }) = Option.none ∧
    List.lookup ("discountAmount") (editOrderTransformedData
      { customerId := ("c1"),
        items := [{ productId := ("p1"), productName := ("A"),
                    quantity := RawInput.numVal (JsNum.fin 2),
                    unitPrice := RawInput.numVal (JsNum.fin 100) }],
        notes := Option.none, status := ("pending"),
        discountType := DiscountTypeField.strv ("fixed"),
        discountValueInput := RawInput.numStr 10,
        shippingFeeInput := RawInput.numStr 5,
        storeShippingCostInput := RawInput.undef }) = Option.none ∧
    List.lookup ("discountValue") (editOrderTransformedData
      { customerId := ("c1"),
        items := [{ productId := ("p1"), productName := ("A"),
                    quantity := RawInput.numVal (JsNum.fin 2),
                    unitPrice := RawInput.numVal (JsNum.fin 100) }],
        notes := Option.none, status := ("pending"),
        discountType := DiscountTypeField.strv ("fixed"),
        discountValueInput := RawInput.numStr 10,
        shippingFeeInput := RawInput.numStr 5,
        storeShippingCostInput := RawInput.undef }) =
      some (JVal.jnum (JsNum.fin 10)) := by
  refine ⟨?_, ?_, ?_⟩ <;>
    simp [editOrderTransformedData, lookup_jsonObj_skip, lookup_jsonObj_hit,
      jsonObj_cons_none, lookup_jsonObj_nil, rawTruthy, jsParseFloat]

/-- C8 amended: the create-order submission and the second edit-order submission
include totalAmount and discountAmount equal to the pricing computation on the
submitted form state, and (when the discount input is a truthy value)
discountValue equal to parseFloat of that input; but the first edit-order update
payload includes neither totalAmount nor discountAmount - it only forwards
discountType, discountValue (when a discount is active and the input truthy) and
the fees, leaving the totals to the backend. -/
theorem c8_payload_totals (c : CreateOrderFormData) (e : EditOrderFormDataV2)
    (d : EditOrderFormData) :
    List.lookup ("totalAmount") (createOrderSubmissionData c) =
      some (JVal.jnum (calcPricing c.items c.discountType.toOpt c.discountValueInput
        c.shippingFeeInput).totalAmount) ∧
    List.lookup ("discountAmount") (createOrderSubmissionData c) =
      some (JVal.jnum (calcPricing c.items c.discountType.toOpt c.discountValueInput
        c.shippingFeeInput).discountAmount) ∧
    (rawTruthy c.discountValueInput = true →
      List.lookup ("discountValue") (createOrderSubmissionData c) =
        some (JVal.jnum (jsParseFloat c.discountValueInput))) ∧
    List.lookup ("totalAmount") (editOrderSubmissionDataV2 e) =
      some (JVal.jnum (calcPricing e.items e.discountType.toOpt e.discountValueInput
        e.shippingFeeInput).totalAmount) ∧
    List.lookup ("discountAmount") (editOrderSubmissionDataV2 e) =
      some (JVal.jnum (calcPricing e.items e.discountType.toOpt e.discountValueInput
        e.shippingFeeInput).discountAmount) ∧
    List.lookup ("totalAmount") (editOrderTransformedData d) = Option.none ∧
    List.lookup ("discountAmount") (editOrderTransformedData d) = Option.none ∧
    (d.discountType ≠ DiscountTypeField.strv ("none") →
      rawTruthy d.discountValueInput = true →
      List.lookup ("discountValue") (editOrderTransformedData d) =
        some (JVal.jnum (jsParseFloat d.discountValueInput))) := by
  refine ⟨?_, ?_, ?_, ?_, ?_, ?_, ?_, ?_⟩ <;>
    first
    | (intro h1 h2
       simp [createOrderSubmissionData, editOrderSubmissionDataV2,
         editOrderTransformedData, lookup_jsonObj_skip, lookup_jsonObj_hit,
         jsonObj_cons_none, lookup_jsonObj_nil, h1, h2])
    | (intro h1
       simp [createOrderSubmissionData, editOrderSubmissionDataV2,
         editOrderTransformedData, lookup_jsonObj_skip, lookup_jsonObj_hit,
         jsonObj_cons_none, lookup_jsonObj_nil, h1])
    | simp [createOrderSubmissionData, editOrderSubmissionDataV2,
        editOrderTransformedData, lookup_jsonObj_skip, lookup_jsonObj_hit,
        jsonObj_cons_none, lookup_jsonObj_nil]

/-- C8 amended, witness: concrete create-order form state with an active fixed
discount of 10 (truthy input), and the concrete first-edit-form payload of the
counterexample-free kind: all three payload shapes evaluated at concrete data. -/
theorem c8_payload_totals_witness :
    List.lookup ("discountValue") (createOrderSubmissionData
      { customerId := ("c1"), customerCategoryId := ("all"),
        items := [{ productId := ("p1"), productName := ("A"),
                    quantity := RawInput.numVal (JsNum.fin 2),
                    unitPrice := RawInput.numVal (JsNum.fin 100) }],
        notes := Option.none,
        discountType := DiscountTypeField.strv ("fixed"),
        discountValueInput := RawInput.numStr 10,
        shippingFeeInput := RawInput.numStr 5,
        storeShippingCostInput := RawInput.undef }) =
      some (JVal.jnum (jsParseFloat (RawInput.numStr 10))) ∧
    List.lookup ("totalAmount") (editOrderTransformedData
      { customerId := ("c2"),
        items := [],
        notes := Option.none, status := ("shipped"),
        discountType := DiscountTypeField.undef,
        discountValueInput := RawInput.undef,
        shippingFeeInput := RawInput.undef,
        storeShippingCostInput := RawInput.undef }) = Option.none := by
  constructor
  · exact (c8_payload_totals
      { customerId := ("c1"), customerCategoryId := ("all"),
        items := [{ productId := ("p1"), productName := ("A"),
                    quantity := RawInput.numVal (JsNum.fin 2),
                    unitPrice := RawInput.numVal (JsNum.fin 100) }],
        notes := Option.none,
        discountType := DiscountTypeField.strv ("fixed"),
        discountValueInput := RawInput.numStr 10,
        shippingFeeInput := RawInput.numStr 5,
        storeShippingCostInput := RawInput.undef }
      { customerId := ("c2"), items := [], notes := Option.none, status := ("s"),
        discountType := DiscountTypeField.undef,
        discountValueInput := RawInput.undef, shippingFeeInput := RawInput.undef }
      { customerId := ("c2"), items := [], notes := Option.none, status := ("shipped"),
        discountType := DiscountTypeField.undef,
        discountValueInput := RawInput.undef, shippingFeeInput := RawInput.undef,
        storeShippingCostInput := RawInput.undef }).2.2.1 (by decide)
  · exact (c8_payload_totals
      { customerId := ("c1"), customerCategoryId := ("all"),
        items := [{ productId := ("p1"), productName := ("A"),
                    quantity := RawInput.numVal (JsNum.fin 2),
                    unitPrice := RawInput.numVal (JsNum.fin 100) }],
        notes := Option.none,
        discountType := DiscountTypeField.strv ("fixed"),
        discountValueInput := RawInput.numStr 10,
        shippingFeeInput := RawInput.numStr 5,
        storeShippingCostInput := RawInput.undef }
      { customerId := ("c2"), items := [], notes := Option.none, status := ("s"),
        discountType := DiscountTypeField.undef,
        discountValueInput := RawInput.undef, shippingFeeInput := RawInput.undef }
      { customerId := ("c2"), items := [], notes := Option.none, status := ("shipped"),
        discountType := DiscountTypeField.undef,
        discountValueInput := RawInput.undef, shippingFeeInput := RawInput.undef,
        storeShippingCostInput := RawInput.undef }).2.2.2.2.2.1
